import Mathlib

/-!
Verification development for the wow-odds repository (frontend search and
metrics-display layer). The definitions below are shallow embeddings of the
TypeScript source under src/wow-odds-frontend; each definition's doc comment
names the source file and lines it is translated from. Numbers that the code
only adds, multiplies, divides and rounds are modelled as rationals; the JS
special values NaN and Infinity produced by division by zero are modelled
explicitly by the JsNum type. Odds values are modelled as integers (American
style odds), for which the JS template rendering of a number coincides with
Int.toString.
-/

namespace WowOdds

/-- ASCII fragment of the JS String.prototype.toLowerCase character mapping:
uppercase ASCII letters map to lowercase, everything else is unchanged. -/
def jsToLowerChar (c : Char) : Char :=
  if 'A' ≤ c ∧ c ≤ 'Z' then Char.ofNat (c.toNat + 32) else c

/-- Model of s.toLowerCase() for strings of ASCII characters. -/
def jsToLowerCase (s : String) : String :=
  String.mk (s.toList.map jsToLowerChar)

/-- Decimal digit character for a value below 10. -/
def digitChar (n : Nat) : Char :=
  Char.ofNat (48 + n)

/-- Decimal digits of a natural number, most significant first, computed
with an explicit fuel argument so the recursion is structural. -/
def natDigits : Nat → Nat → List Char
  | 0, _ => []
  | fuel + 1, n =>
      if n < 10 then [digitChar n]
      else natDigits fuel (n / 10) ++ [digitChar (n % 10)]

/-- Decimal rendering of a natural number. -/
def natToString (n : Nat) : String :=
  String.mk (natDigits (n + 1) n)

/-- Default JS rendering of an integer-valued number, as produced by a
template literal: an optional minus sign followed by the decimal digits. -/
def intToString (i : Int) : String :=
  if i < 0 then "-" ++ natToString (-i).toNat else natToString i.toNat

/-- Uppercase hexadecimal digit for a value below 16, as produced by the
ECMAScript Encode operation. -/
def hexDigit (n : Nat) : Char :=
  if n < 10 then Char.ofNat (48 + n) else Char.ofNat (55 + n)

/-- One percent-escaped byte, e.g. 32 becomes the three characters %20. -/
def byteHex (b : Nat) : String :=
  String.mk [Char.ofNat 37, hexDigit (b / 16), hexDigit (b % 16)]

/-- UTF-8 encoding of a Unicode scalar value, as a list of byte values. -/
def utf8Bytes (n : Nat) : List Nat :=
  if n < 128 then [n]
  else if n < 2048 then [192 + n / 64, 128 + n % 64]
  else if n < 65536 then [224 + n / 4096, 128 + (n / 64) % 64, 128 + n % 64]
  else [240 + n / 262144, 128 + (n / 4096) % 64, 128 + (n / 64) % 64, 128 + n % 64]

/-- The uriUnescaped character set of ECMAScript encodeURIComponent:
ASCII letters and digits together with hyphen, underscore, period,
exclamation mark, tilde, asterisk, apostrophe and the two parentheses
(character codes 45, 95, 46, 33, 126, 42, 39, 40, 41). -/
def uriUnescapedChar (c : Char) : Bool :=
  c.isAlphanum || c.toNat ∈ [45, 95, 46, 33, 126, 42, 39, 40, 41]

/-- encodeURIComponent on one character: kept verbatim when uriUnescaped,
otherwise percent-escaped byte by byte in UTF-8. -/
def encodeChar (c : Char) : String :=
  if uriUnescapedChar c then String.singleton c
  else String.join ((utf8Bytes c.toNat).map byteHex)

/-- Model of the ECMAScript encodeURIComponent function. -/
def encodeURIComponent (s : String) : String :=
  String.join (s.toList.map encodeChar)

/-- Zero-pads a digit string on the left to width w. -/
def padZeros (s : String) (w : Nat) : String :=
  String.mk (List.replicate (w - s.length) '0') ++ s

/-- Model of Number.prototype.toFixed(f) on a rational x for the ordinary
range (the ECMAScript branch for x below 10 to the 21st power): the sign is
taken off first, the absolute value times 10^f is rounded to the nearest
integer with ties away from zero, and the digits are split at the decimal
point. Note that this reproduces the JS rendering of negative zero, e.g.
toFixed 0 of -2/5 is the string -0, as in JS. -/
def toFixed (f : Nat) (q : ℚ) : String :=
  let sign := if q < 0 then "-" else ""
  let n : Nat := (Int.floor (|q| * (10 : ℚ) ^ f + 1/2)).toNat
  if f = 0 then sign ++ natToString n
  else sign ++ natToString (n / 10 ^ f) ++ "." ++ padZeros (natToString (n % 10 ^ f)) f

/-- JS number results of the arithmetic this layer performs: a finite
rational, NaN, or a signed infinity. -/
inductive JsNum where
  | fin (q : ℚ)
  | nan
  | posInf
  | negInf
  deriving DecidableEq

/-- JS division: division by zero gives NaN for a zero numerator and a
signed infinity otherwise; other divisions are exact rational division. -/
def jsDiv (a b : ℚ) : JsNum :=
  if b = 0 then
    if a = 0 then JsNum.nan
    else if a > 0 then JsNum.posInf
    else JsNum.negInf
  else JsNum.fin (a / b)

/-- JS multiplication of an intermediate result by a nonzero positive
rational constant (only the constant 100 is used by the source). -/
def jsMulPos (x : JsNum) (k : ℚ) : JsNum :=
  match x with
  | JsNum.fin q => JsNum.fin (q * k)
  | JsNum.nan => JsNum.nan
  | JsNum.posInf => JsNum.posInf
  | JsNum.negInf => JsNum.negInf

/-- toFixed lifted to JS numbers: NaN renders as the string NaN and the
infinities render as Infinity with an optional sign, as in ECMAScript. -/
def jsToFixed (f : Nat) (x : JsNum) : String :=
  match x with
  | JsNum.fin q => toFixed f q
  | JsNum.nan => "NaN"
  | JsNum.posInf => "Infinity"
  | JsNum.negInf => "-Infinity"

/-- formatOdds, appearing identically in PlayerMetricsDisplay.tsx lines
38 to 44, DeathMetricsDisplay (src/unnamed/part_000 lines 73 to 79),
AvoidableDamageDisplay.tsx lines 62 to 68 and PerformanceDisplay.tsx lines
52 to 58: a component strictly greater than zero is rendered with a plus
sign prepended, any other component (zero included) is rendered by the
default JS number rendering, which for an integer n is Int.toString n. -/
def formatOdds (odds : Int × Int) : String × String :=
  (if odds.1 > 0 then "+" ++ intToString odds.1 else intToString odds.1,
   if odds.2 > 0 then "+" ++ intToString odds.2 else intToString odds.2)

/-- formatNumber from AvoidableDamageDisplay.tsx lines 70 to 78: at least a
million renders as millions to one decimal with suffix M, at least a
thousand as thousands to one decimal with suffix K, otherwise toFixed(0). -/
def formatNumber (num : ℚ) : String :=
  if num ≥ 1000000 then toFixed 1 (num / 1000000) ++ "M"
  else if num ≥ 1000 then toFixed 1 (num / 1000) ++ "K"
  else toFixed 0 num

/-- formatPercentage from PerformanceDisplay.tsx line 60: value times 100,
one decimal, percent sign. -/
def formatPercentage (value : ℚ) : String :=
  toFixed 1 (value * 100) ++ "%"

/-- formatValue from DeathMetricsDisplay (src/unnamed/part_000 lines 81 to
86): a value below one is shown as a percentage to one decimal, otherwise
to two decimals. -/
def formatValue (value : ℚ) : String :=
  if value < 1 then toFixed 1 (value * 100) ++ "%"
  else toFixed 2 value

/-- The per-report success-rate display from MetricsLayout.tsx line 127:
((report.kills / report.total_fights) * 100).toFixed(1) followed by a
percent sign, with JS division semantics (0/0 is NaN, k/0 is a signed
infinity for nonzero k). -/
def successRateDisplay (kills total_fights : ℚ) : String :=
  jsToFixed 1 (jsMulPos (jsDiv kills total_fights) 100) ++ "%"

/-- The kill-rate display from MetricsLayout.tsx line 89:
metrics.overview.kill_rate.toFixed(1) followed by a percent sign. -/
def killRateDisplay (kill_rate : ℚ) : String :=
  toFixed 1 kill_rate ++ "%"

/-- The search mode toggle of both SearchPage components. -/
inductive SearchType where
  | player
  | guild
  deriving DecidableEq

/-- The component state captured at submit time by both SearchPage
components: searchType, characterName, serverName, region and version
(region and version are select inputs holding plain strings). -/
structure SearchQuery where
  searchType : SearchType
  characterName : String
  serverName : String
  region : String
  version : String
  deriving DecidableEq

/-- The endpoint path built by handleSearch in
src/components/SearchPage/index.tsx lines 42 to 44: the server and name
segments are lower-cased and then percent-encoded with
encodeURIComponent; the player path carries a version query parameter,
the guild path does not. -/
def buildUrl (q : SearchQuery) : String :=
  if q.searchType = SearchType.player then
    "/api/v1/player/" ++ q.region ++ "/" ++
      encodeURIComponent (jsToLowerCase q.serverName) ++ "/" ++
      encodeURIComponent (jsToLowerCase q.characterName) ++
      "?version=" ++ q.version
  else
    "/api/v1/guild/" ++ q.region ++ "/" ++
      encodeURIComponent (jsToLowerCase q.serverName) ++ "/" ++
      encodeURIComponent (jsToLowerCase q.characterName)

/-- The endpoint path built by handleSearch in
src/components/SearchPage.tsx lines 33 to 35: the server and name
segments are lower-cased but interpolated directly, with no
encodeURIComponent call. -/
def buildUrlLegacy (q : SearchQuery) : String :=
  if q.searchType = SearchType.player then
    "/api/v1/player/" ++ q.region ++ "/" ++ jsToLowerCase q.serverName ++
      "/" ++ jsToLowerCase q.characterName ++ "?version=" ++ q.version
  else
    "/api/v1/guild/" ++ q.region ++ "/" ++ jsToLowerCase q.serverName ++
      "/" ++ jsToLowerCase q.characterName

/-- The observable actions a handleSearch run performs, in order. The
global setters are the callbacks the SearchPage in
src/components/SearchPage/index.tsx receives from page.tsx (setError,
setLoading, onSearchComplete); the local setters are its own useState
setters. For the self-contained src/components/SearchPage.tsx the same
constructors stand for its setError, setLoading and setSearchResults.
The result payload is kept opaque as a string. -/
inductive Event where
  | setLocalError (msg : String)
  | setLocalLoading (b : Bool)
  | setGlobalError (msg : String)
  | setGlobalLoading (b : Bool)
  | fetchIssued (url : String)
  | searchComplete (result : Option String)
  deriving DecidableEq

/-- How the awaited fetch of one submit resolves: a parsed success body,
a non-2xx response whose parsed JSON body has an optional detail field,
or a rejection (network failure or JSON parse failure) carrying the
message of the thrown Error, none when the thrown value is not an Error
instance. -/
inductive FetchOutcome where
  | success (data : String)
  | httpError (detail : Option String)
  | networkError (msg : Option String)
  deriving DecidableEq

/-- JS truthy fallback a || b on an optional string field: an absent
field and the empty string are both falsy and fall back to b.irrelevant
to well-formed details but decisive for empty ones. -/
def jsOrElse (a : Option String) (b : String) : String :=
  match a with
  | some s => if s = "" then b else s
  | none => b

/-- The synchronous prefix of handleSearch from
src/components/SearchPage/index.tsx lines 28 to 48, up to and including
issuing the fetch: the validation guard returns early with only a local
message; a valid submit clears the local and global errors, raises both
loading flags and issues the fetch. -/
def handleSearchPre (q : SearchQuery) : List Event :=
  if q.characterName = "" ∨ q.serverName = "" then
    [Event.setLocalError "Please fill in all required fields"]
  else
    [Event.setLocalError "", Event.setGlobalError "",
     Event.setGlobalLoading true, Event.setLocalLoading true,
     Event.fetchIssued (buildUrl q)]

/-- The continuation of handleSearch from
src/components/SearchPage/index.tsx lines 48 to 67 once the fetch
resolves: success reports the parsed data to onSearchComplete; a non-2xx
response throws Error(data.detail || generic) which the catch turns into
setError plus onSearchComplete(null); a rejected fetch or parse is
caught the same way with the Error message or a generic fallback; the
finally block always lowers both loading flags. -/
def handleSearchPost (q : SearchQuery) (o : FetchOutcome) : List Event :=
  if q.characterName = "" ∨ q.serverName = "" then []
  else
    (match o with
     | FetchOutcome.success d => [Event.searchComplete (some d)]
     | FetchOutcome.httpError detail =>
         [Event.setGlobalError (jsOrElse detail "Failed to fetch data"),
          Event.searchComplete none]
     | FetchOutcome.networkError msg =>
         [Event.setGlobalError (msg.getD "Unknown error occurred"),
          Event.searchComplete none]) ++
    [Event.setGlobalLoading false, Event.setLocalLoading false]

/-- One whole handleSearch run of src/components/SearchPage/index.tsx for
a given resolution of its single fetch. -/
def handleSearch (q : SearchQuery) (o : FetchOutcome) : List Event :=
  handleSearchPre q ++ handleSearchPost q o

/-- The synchronous prefix of handleSearch from
src/components/SearchPage.tsx lines 21 to 37: it first clears the error
and the previous results unconditionally, then the validation guard may
return early writing the validation message into the same error state;
a valid submit raises the loading flag and issues the fetch built
without percent-encoding. -/
def handleSearchLegacyPre (q : SearchQuery) : List Event :=
  [Event.setGlobalError "", Event.searchComplete none] ++
  if q.characterName = "" ∨ q.serverName = "" then
    [Event.setGlobalError "Please enter both name and server"]
  else
    [Event.setGlobalLoading true, Event.fetchIssued (buildUrlLegacy q)]

/-- The continuation of handleSearch from src/components/SearchPage.tsx
lines 39 to 52 once the fetch resolves: success stores the parsed data;
a non-2xx response throws Error(errorData.detail || generic), caught as
setError; a rejection is caught with the Error message or the generic
fallback of this component; the finally block lowers the loading flag. -/
def handleSearchLegacyPost (q : SearchQuery) (o : FetchOutcome) : List Event :=
  if q.characterName = "" ∨ q.serverName = "" then []
  else
    (match o with
     | FetchOutcome.success d => [Event.searchComplete (some d)]
     | FetchOutcome.httpError detail =>
         [Event.setGlobalError (jsOrElse detail "Failed to fetch data")]
     | FetchOutcome.networkError msg =>
         [Event.setGlobalError (msg.getD "Error fetching data")]) ++
    [Event.setGlobalLoading false]

/-- One whole handleSearch run of src/components/SearchPage.tsx for a
given resolution of its single fetch. -/
def handleSearchLegacy (q : SearchQuery) (o : FetchOutcome) : List Event :=
  handleSearchLegacyPre q ++ handleSearchLegacyPost q o

/-- The aggregator state owned by page.tsx (searchResults, isLoading,
error), which is also the shape of the session state of the
self-contained SearchPage.tsx. -/
structure PageState where
  searchResults : Option String
  isLoading : Bool
  error : String
  deriving DecidableEq

/-- Effect of one callback invocation on the aggregator state, following
page.tsx: handleSearchComplete stores the payload unconditionally,
setIsLoading and setError overwrite their fields; the local setters of
the form component and the network action do not touch this state. -/
def applyEvent (s : PageState) (e : Event) : PageState :=
  match e with
  | Event.setGlobalLoading b => { s with isLoading := b }
  | Event.setGlobalError m => { s with error := m }
  | Event.searchComplete r => { s with searchResults := r }
  | _ => s

/-- Folds a trace of events over the aggregator state in order. -/
def applyEvents (s : PageState) (es : List Event) : PageState :=
  es.foldl applyEvent s

/-- State transition of the loading flag alone under one event. -/
def loadingStep (b : Bool) (e : Event) : Bool :=
  match e with
  | Event.setGlobalLoading v => v
  | _ => b

/-- The value of the loading flag after a trace, starting from false. -/
def loadingAfter (es : List Event) : Bool :=
  es.foldl loadingStep false

/-- Whether a trace issues any network request. -/
def issuesFetch (es : List Event) : Bool :=
  es.any fun e =>
    match e with
    | Event.fetchIssued _ => true
    | _ => false

/-- The part of a trace strictly before its first network request. -/
def beforeFetch (es : List Event) : List Event :=
  es.takeWhile fun e =>
    match e with
    | Event.fetchIssued _ => false
    | _ => true

/-- The initial aggregator state of page.tsx: no results, not loading,
empty error. -/
def pageInit : PageState :=
  PageState.mk none false ""

/-- The sample query of the specification scenario. -/
def sampleQuery : SearchQuery :=
  SearchQuery.mk SearchType.player "Thrall" "Stormrage" "us" "SoD"

/-- A second valid sample query, for the overlapping-submit scenario. -/
def sampleQueryB : SearchQuery :=
  SearchQuery.mk SearchType.player "Arthas" "Area 52" "us" "SoD"

/-- A guild-mode sample query, used as witness input. -/
def sampleGuildQuery : SearchQuery :=
  SearchQuery.mk SearchType.guild "Thrall" "Stormrage" "us" "SoD"

/-- A leaf statistic as read by PlayerMetricsDisplay: only its odds pair
matters to the cooldown card. -/
structure StatLeaf where
  odds : Int × Int
  deriving DecidableEq

/-- The dynamically typed fight_execution object of the untyped payload
consumed by PlayerMetricsDisplay.tsx (the data prop is typed any):
either nested field may be absent. -/
structure FightExecutionFields where
  mechanic_success : Option StatLeaf
  cooldown_usage : Option StatLeaf
  deriving DecidableEq

/-- The dynamically typed performance object consumed by
PlayerMetricsDisplay.tsx: fight_execution and a possible top-level
cooldown_usage field, either of which may be absent. -/
structure PerformanceFields where
  fight_execution : Option FightExecutionFields
  cooldown_usage : Option StatLeaf
  deriving DecidableEq

/-- Outcome of evaluating the Cooldown Efficiency card expression:
the guard is falsy and nothing renders, or the card renders with the
odds it read, or the evaluation dereferences a field of undefined and
throws a TypeError. -/
inductive RenderOutcome where
  | notRendered
  | rendered (odds : Int × Int)
  | typeError
  deriving DecidableEq

/-- The Cooldown Efficiency card expression of PlayerMetricsDisplay.tsx
lines 137 to 141: the guard reads data.metrics.performance.cooldown_usage,
but the odds argument reads
data.metrics.performance.fight_execution.cooldown_usage.odds. When the
guard is truthy and fight_execution is absent, reading .cooldown_usage of
undefined throws; when fight_execution is present but its cooldown_usage
is absent, reading .odds of undefined throws. -/
def cooldownCard (p : PerformanceFields) : RenderOutcome :=
  match p.cooldown_usage with
  | none => RenderOutcome.notRendered
  | some _ =>
    match p.fight_execution with
    | none => RenderOutcome.typeError
    | some fe =>
      match fe.cooldown_usage with
      | none => RenderOutcome.typeError
      | some s => RenderOutcome.rendered s.odds

/-- The mechanic_success statistic of the documented PerformanceMetrics
interface (PerformanceDisplay.tsx lines 16 to 21). -/
structure MechanicSuccessStat where
  success_rate : ℚ
  total_mechanics : ℚ
  successful : ℚ
  odds : Int × Int

/-- The cooldown_usage statistic of the documented PerformanceMetrics
interface (PerformanceDisplay.tsx lines 22 to 27). -/
structure CooldownUsageStat where
  efficiency : ℚ
  total_possible : ℚ
  total_used : ℚ
  odds : Int × Int

/-- The fight_execution block of the documented PerformanceMetrics
interface (PerformanceDisplay.tsx lines 15 to 28): cooldown_usage lives
only here, nested inside fight_execution. -/
structure FightExecution where
  mechanic_success : MechanicSuccessStat
  cooldown_usage : CooldownUsageStat

/-- The role_performance block of the documented PerformanceMetrics
interface (PerformanceDisplay.tsx lines 29 to 42), all three fields
optional. -/
structure RolePerformance where
  dps_uptime : Option StatLeaf
  healing_efficiency : Option StatLeaf
  tank_survival : Option StatLeaf

/-- The documented PerformanceMetrics shape (PerformanceDisplay.tsx lines
14 to 43). -/
structure PerformanceMetrics where
  fight_execution : FightExecution
  role_performance : RolePerformance

/-- A payload of the documented PerformanceMetrics shape, seen through
the untyped field accesses of PlayerMetricsDisplay: both nested
fight_execution statistics are present, and there is no top-level
cooldown_usage field. -/
def PerformanceMetrics.toDynamic (pm : PerformanceMetrics) : PerformanceFields :=
  PerformanceFields.mk
    (some (FightExecutionFields.mk
      (some (StatLeaf.mk pm.fight_execution.mechanic_success.odds))
      (some (StatLeaf.mk pm.fight_execution.cooldown_usage.odds))))
    none

/-- A concrete documented payload, used as witness input. -/
def samplePerformance : PerformanceMetrics :=
  PerformanceMetrics.mk
    (FightExecution.mk
      (MechanicSuccessStat.mk (9/10) 40 36 (110, -130))
      (CooldownUsageStat.mk (3/4) 20 15 (120, -140)))
    (RolePerformance.mk none none none)

/-- Helper: toFixed of a nonnegative rational, expressed through the
rounded integer n, so that concrete evaluations only need the floor of a
single rational. -/
theorem toFixed_nonneg (f : Nat) (q : ℚ) (n : Nat) (hq : 0 ≤ q)
    (hn : Int.floor (q * (10 : ℚ) ^ f + 1/2) = (n : Int)) :
    toFixed f q =
      (if f = 0 then natToString n
       else natToString (n / 10 ^ f) ++ "." ++ padZeros (natToString (n % 10 ^ f)) f) := by
  unfold toFixed
  rw [abs_of_nonneg hq, hn, if_neg (not_lt.mpr hq)]
  simp

/-- C1 counterexample: the claim says a component equal to zero renders
with a plus sign, but formatOdds uses a strict comparison, so the zero
component of the pair (0, -110) renders as the string 0, not as +0 (and
symmetrically for the second component). -/
theorem formatOdds_zero_cex :
    (formatOdds (0, -110)).1 = "0" ∧ "0" ≠ "+0" ∧
    (formatOdds (-110, 0)).2 = "0" ∧ "0" ≠ "+0" := by
  decide

/-- C1 amended: for every odds pair, a component strictly greater than
zero renders with a plus sign prepended, and a component less than or
equal to zero (zero included) renders unchanged by the default JS number
rendering, the same rule applied independently to each component. -/
theorem formatOdds_sign (a b : Int) :
    (a > 0 → (formatOdds (a, b)).1 = "+" ++ intToString a) ∧
    (a ≤ 0 → (formatOdds (a, b)).1 = intToString a) ∧
    (b > 0 → (formatOdds (a, b)).2 = "+" ++ intToString b) ∧
    (b ≤ 0 → (formatOdds (a, b)).2 = intToString b) := by
  refine ⟨fun h => ?_, fun h => ?_, fun h => ?_, fun h => ?_⟩
  · simp only [formatOdds, if_pos h]
  · simp only [formatOdds, if_neg (not_lt.mpr h)]
  · simp only [formatOdds, if_pos h]
  · simp only [formatOdds, if_neg (not_lt.mpr h)]

/-- C1 witness: the pair (150, -110) renders as +150 and -110. -/
theorem formatOdds_sign_witness :
    ((150 : Int) > 0 ∧ (formatOdds (150, -110)).1 = "+150") ∧
    ((-110 : Int) ≤ 0 ∧ (formatOdds (150, -110)).2 = "-110") := by
  refine ⟨⟨by decide, ?_⟩, ⟨by decide, ?_⟩⟩
  · rw [(formatOdds_sign 150 (-110)).1 (by decide)]; decide
  · rw [(formatOdds_sign 150 (-110)).2.2.2 (by decide)]; decide

/-- C2: for every query with nonempty name and server and every fetch
outcome (success, non-2xx response, thrown or network error), both
handleSearch variants raise the loading flag strictly before the fetch
is issued and leave the loading flag false once the whole run has been
applied, so the flag is never stuck true after completion. -/
theorem loading_released (q : SearchQuery) (o : FetchOutcome)
    (hn : q.characterName ≠ "") (hs : q.serverName ≠ "") :
    Event.setGlobalLoading true ∈ beforeFetch (handleSearch q o) ∧
    issuesFetch (handleSearch q o) = true ∧
    loadingAfter (handleSearch q o) = false ∧
    Event.setGlobalLoading true ∈ beforeFetch (handleSearchLegacy q o) ∧
    issuesFetch (handleSearchLegacy q o) = true ∧
    loadingAfter (handleSearchLegacy q o) = false := by
  have h : ¬ (q.characterName = "" ∨ q.serverName = "") := fun hc => hc.elim hn hs
  cases o <;>
    simp [handleSearch, handleSearchPre, handleSearchPost, handleSearchLegacy,
      handleSearchLegacyPre, handleSearchLegacyPost, if_neg h, beforeFetch,
      issuesFetch, loadingAfter, loadingStep, List.takeWhile, List.any, List.foldl]

/-- C2 witness: the sample query with a successful fetch. -/
theorem loading_released_witness :
    Event.setGlobalLoading true ∈ beforeFetch (handleSearch sampleQuery (FetchOutcome.success "d")) ∧
    issuesFetch (handleSearch sampleQuery (FetchOutcome.success "d")) = true ∧
    loadingAfter (handleSearch sampleQuery (FetchOutcome.success "d")) = false ∧
    Event.setGlobalLoading true ∈ beforeFetch (handleSearchLegacy sampleQuery (FetchOutcome.success "d")) ∧
    issuesFetch (handleSearchLegacy sampleQuery (FetchOutcome.success "d")) = true ∧
    loadingAfter (handleSearchLegacy sampleQuery (FetchOutcome.success "d")) = false :=
  loading_released sampleQuery (FetchOutcome.success "d") (by decide) (by decide)

/-- C3 amended: for every valid submit in either mode, the
SearchPage/index.tsx path is built from region, lower-cased
percent-encoded server and lower-cased percent-encoded name, with the
version query parameter in player mode and without it in guild mode,
while the legacy SearchPage.tsx path interpolates the lower-cased
segments without percent-encoding; the scenario query for Thrall on
Stormrage (us, SoD) produces /api/v1/player/us/stormrage/thrall?version=SoD
in both components, and its guild-mode variant produces
/api/v1/guild/us/stormrage/thrall. -/
theorem url_building (q : SearchQuery) :
    (q.searchType = SearchType.player →
      buildUrl q = "/api/v1/player/" ++ q.region ++ "/" ++
        encodeURIComponent (jsToLowerCase q.serverName) ++ "/" ++
        encodeURIComponent (jsToLowerCase q.characterName) ++ "?version=" ++ q.version ∧
      buildUrlLegacy q = "/api/v1/player/" ++ q.region ++ "/" ++
        jsToLowerCase q.serverName ++ "/" ++ jsToLowerCase q.characterName ++
        "?version=" ++ q.version) ∧
    (q.searchType = SearchType.guild →
      buildUrl q = "/api/v1/guild/" ++ q.region ++ "/" ++
        encodeURIComponent (jsToLowerCase q.serverName) ++ "/" ++
        encodeURIComponent (jsToLowerCase q.characterName) ∧
      buildUrlLegacy q = "/api/v1/guild/" ++ q.region ++ "/" ++
        jsToLowerCase q.serverName ++ "/" ++ jsToLowerCase q.characterName) ∧
    buildUrl sampleQuery = "/api/v1/player/us/stormrage/thrall?version=SoD" ∧
    buildUrlLegacy sampleQuery = "/api/v1/player/us/stormrage/thrall?version=SoD" ∧
    buildUrl sampleGuildQuery = "/api/v1/guild/us/stormrage/thrall" ∧
    buildUrlLegacy sampleGuildQuery = "/api/v1/guild/us/stormrage/thrall" := by
  refine ⟨fun h => ⟨?_, ?_⟩, fun h => ⟨?_, ?_⟩, by decide, by decide, by decide, by decide⟩
  · simp only [buildUrl, if_pos h]
  · simp only [buildUrlLegacy, if_pos h]
  · simp [buildUrl, h]
  · simp [buildUrlLegacy, h]

/-- C3 witness: the scenario query of the specification in player mode,
and the same identity in guild mode. -/
theorem url_building_witness :
    (sampleQuery.searchType = SearchType.player ∧
      buildUrl sampleQuery = "/api/v1/player/us/stormrage/thrall?version=SoD") ∧
    (sampleGuildQuery.searchType = SearchType.guild ∧
      buildUrl sampleGuildQuery = "/api/v1/guild/us/stormrage/thrall") := by
  refine ⟨⟨by decide, ?_⟩, ⟨by decide, ?_⟩⟩
  · rw [((url_building sampleQuery).1 (by decide)).1]; decide
  · rw [((url_building sampleGuildQuery).2.1 (by decide)).1]; decide

/-- C3 counterexample: a server name containing a space. The legacy
SearchPage.tsx emits the raw space into the path, whereas the
percent-encoded segment would be area%2052, so the claim that every
submit percent-encodes the segments fails on the legacy component. -/
theorem url_encoding_cex :
    encodeURIComponent (jsToLowerCase "Area 52") = "area%2052" ∧
    buildUrlLegacy sampleQueryB = "/api/v1/player/us/area 52/arthas?version=SoD" ∧
    buildUrl sampleQueryB = "/api/v1/player/us/area%2052/arthas?version=SoD" ∧
    "/api/v1/player/us/area 52/arthas?version=SoD" ≠
      "/api/v1/player/us/area%2052/arthas?version=SoD" := by
  decide

/-- C4 amended: a submit with empty name or empty server issues no
network call in either component; in SearchPage/index.tsx the whole run
is a single local validation message and the aggregator state is left
untouched, while the legacy SearchPage.tsx writes its validation message
into the same error state it uses for server errors. -/
theorem validation_no_network (q : SearchQuery) (o : FetchOutcome) (s : PageState)
    (h : q.characterName = "" ∨ q.serverName = "") :
    handleSearch q o = [Event.setLocalError "Please fill in all required fields"] ∧
    issuesFetch (handleSearch q o) = false ∧
    applyEvents s (handleSearch q o) = s ∧
    issuesFetch (handleSearchLegacy q o) = false ∧
    (applyEvents s (handleSearchLegacy q o)).error = "Please enter both name and server" := by
  refine ⟨?_, ?_, ?_, ?_, ?_⟩ <;>
    simp [handleSearch, handleSearchPre, handleSearchPost,
      handleSearchLegacy, handleSearchLegacyPre, handleSearchLegacyPost,
      if_pos h, issuesFetch, applyEvents, applyEvent]

/-- C4 witness: a query with empty character name. -/
theorem validation_no_network_witness :
    ("" = "" ∨ "Stormrage" = "") ∧
    handleSearch (SearchQuery.mk SearchType.player "" "Stormrage" "us" "SoD")
        (FetchOutcome.success "d") =
      [Event.setLocalError "Please fill in all required fields"] ∧
    issuesFetch (handleSearch (SearchQuery.mk SearchType.player "" "Stormrage" "us" "SoD")
        (FetchOutcome.success "d")) = false ∧
    applyEvents pageInit (handleSearch (SearchQuery.mk SearchType.player "" "Stormrage" "us" "SoD")
        (FetchOutcome.success "d")) = pageInit ∧
    issuesFetch (handleSearchLegacy (SearchQuery.mk SearchType.player "" "Stormrage" "us" "SoD")
        (FetchOutcome.success "d")) = false ∧
    (applyEvents pageInit (handleSearchLegacy
        (SearchQuery.mk SearchType.player "" "Stormrage" "us" "SoD")
        (FetchOutcome.success "d"))).error = "Please enter both name and server" :=
  ⟨Or.inl rfl, validation_no_network _ _ pageInit (Or.inl rfl)⟩

/-- C4 counterexample: in the legacy SearchPage.tsx an invalid submit
overwrites the session error state with the validation message, so the
part of the claim saying the validation message does not touch the
error state fails on that component. -/
theorem validation_touches_error_cex :
    (applyEvents (PageState.mk none false "previous error")
      (handleSearchLegacy (SearchQuery.mk SearchType.player "" "Stormrage" "us" "SoD")
        (FetchOutcome.success "d"))).error = "Please enter both name and server" ∧
    "Please enter both name and server" ≠ "previous error" := by
  decide

/-- C5 amended: for every valid query, every aggregator state and every
non-2xx response, the error state becomes the detail field exactly when
it is present and nonempty and the generic message otherwise (absent
detail or detail equal to the empty string, via the JS truthiness
fallback in the source), and every non-2xx outcome reports an explicit
null to the result callback so the result state becomes empty. -/
theorem server_error_reporting (q : SearchQuery) (s : PageState) (d : String)
    (hn : q.characterName ≠ "") (hs : q.serverName ≠ "") :
    (applyEvents s (handleSearch q (FetchOutcome.httpError (some d)))).error =
      (if d = "" then "Failed to fetch data" else d) ∧
    (applyEvents s (handleSearch q (FetchOutcome.httpError none))).error =
      "Failed to fetch data" ∧
    (applyEvents s (handleSearch q (FetchOutcome.httpError (some d)))).searchResults = none ∧
    (applyEvents s (handleSearch q (FetchOutcome.httpError none))).searchResults = none ∧
    Event.searchComplete none ∈ handleSearch q (FetchOutcome.httpError (some d)) ∧
    Event.searchComplete none ∈ handleSearch q (FetchOutcome.httpError none) := by
  have h : ¬ (q.characterName = "" ∨ q.serverName = "") := fun hc => hc.elim hn hs
  refine ⟨?_, ?_, ?_, ?_, ?_, ?_⟩ <;>
    simp [handleSearch, handleSearchPre, handleSearchPost, if_neg h,
      applyEvents, applyEvent, List.foldl, jsOrElse]

/-- C5 witness: the 404 scenario with detail Character not found, run
from a state holding a stale result (the error becomes exactly that
string and the result state is cleared), together with the empty-detail
and absent-detail instances, both of which yield the generic message and
an empty result state. -/
theorem server_error_reporting_witness :
    (applyEvents (PageState.mk (some "stale") false "")
      (handleSearch sampleQuery (FetchOutcome.httpError (some "Character not found")))).error =
        "Character not found" ∧
    (applyEvents (PageState.mk (some "stale") false "")
      (handleSearch sampleQuery (FetchOutcome.httpError (some "Character not found")))).searchResults
        = none ∧
    (applyEvents (PageState.mk (some "stale") false "")
      (handleSearch sampleQuery (FetchOutcome.httpError (some "")))).error =
        "Failed to fetch data" ∧
    (applyEvents (PageState.mk (some "stale") false "")
      (handleSearch sampleQuery (FetchOutcome.httpError (some "")))).searchResults = none ∧
    (applyEvents (PageState.mk (some "stale") false "")
      (handleSearch sampleQuery (FetchOutcome.httpError none))).error = "Failed to fetch data" ∧
    (applyEvents (PageState.mk (some "stale") false "")
      (handleSearch sampleQuery (FetchOutcome.httpError none))).searchResults = none := by
  have h1 := server_error_reporting sampleQuery (PageState.mk (some "stale") false "")
    "Character not found" (by decide) (by decide)
  have h2 := server_error_reporting sampleQuery (PageState.mk (some "stale") false "")
    "" (by decide) (by decide)
  exact ⟨by rw [h1.1]; decide, h1.2.2.1, by rw [h2.1]; decide, h2.2.2.1, h1.2.1, h1.2.2.2.1⟩

/-- C5 counterexample: a non-2xx body whose detail field is present but
equal to the empty string yields the generic message, not the
server-supplied string, because the source uses data.detail with a JS
truthiness fallback. -/
theorem detail_empty_cex :
    (applyEvents pageInit (handleSearch sampleQuery (FetchOutcome.httpError (some "")))).error =
      "Failed to fetch data" ∧ "Failed to fetch data" ≠ "" := by
  decide

/-- C6 amended: when a valid search begins, the error state is cleared
before the fetch in both components; the previous result is cleared
before the fetch only in the legacy SearchPage.tsx, while
SearchPage/index.tsx leaves the previous result in place until
completion, at which point every error outcome clears it, so a stale
success result is not shown alongside the new error once the run has
completed. -/
theorem clear_on_new_search (q : SearchQuery) (s : PageState) (d m : Option String)
    (hn : q.characterName ≠ "") (hs : q.serverName ≠ "") :
    (applyEvents s (handleSearchPre q)).error = "" ∧
    (applyEvents s (handleSearchPre q)).searchResults = s.searchResults ∧
    (applyEvents s (handleSearch q (FetchOutcome.httpError d))).searchResults = none ∧
    (applyEvents s (handleSearch q (FetchOutcome.networkError m))).searchResults = none ∧
    (applyEvents s (handleSearchLegacyPre q)).error = "" ∧
    (applyEvents s (handleSearchLegacyPre q)).searchResults = none := by
  have h : ¬ (q.characterName = "" ∨ q.serverName = "") := fun hc => hc.elim hn hs
  refine ⟨?_, ?_, ?_, ?_, ?_, ?_⟩ <;>
    simp [handleSearch, handleSearchPre, handleSearchPost, handleSearchLegacyPre,
      if_neg h, applyEvents, applyEvent, List.foldl]

/-- C6 witness: the sample query run from a state holding a stale result
and an old error. -/
theorem clear_on_new_search_witness :
    (applyEvents (PageState.mk (some "stale") false "old error") (handleSearchPre sampleQuery)).error = "" ∧
    (applyEvents (PageState.mk (some "stale") false "old error") (handleSearchPre sampleQuery)).searchResults = some "stale" ∧
    (applyEvents (PageState.mk (some "stale") false "old error")
      (handleSearch sampleQuery (FetchOutcome.httpError (some "boom")))).searchResults = none ∧
    (applyEvents (PageState.mk (some "stale") false "old error")
      (handleSearch sampleQuery (FetchOutcome.networkError none))).searchResults = none ∧
    (applyEvents (PageState.mk (some "stale") false "old error") (handleSearchLegacyPre sampleQuery)).error = "" ∧
    (applyEvents (PageState.mk (some "stale") false "old error") (handleSearchLegacyPre sampleQuery)).searchResults = none :=
  clear_on_new_search sampleQuery (PageState.mk (some "stale") false "old error")
    (some "boom") none (by decide) (by decide)

/-- C6 counterexample: in SearchPage/index.tsx the previous result is
still present in the aggregator state at the moment the fetch is issued
(the synchronous prefix ends with the fetch), so the claim that both the
error and the previous result are cleared before the fetch fails. -/
theorem stale_result_at_fetch_cex :
    (applyEvents (PageState.mk (some "stale") false "")
      (handleSearchPre sampleQuery)).searchResults = some "stale" ∧
    (handleSearchPre sampleQuery).getLast? =
      some (Event.fetchIssued "/api/v1/player/us/stormrage/thrall?version=SoD") ∧
    handleSearch sampleQuery (FetchOutcome.success "new") =
      handleSearchPre sampleQuery ++ handleSearchPost sampleQuery (FetchOutcome.success "new") := by
  refine ⟨by decide, by decide, rfl⟩

/-- C9: two overlapping valid submits both issue fetches (nothing
cancels the first), and the aggregator result always equals the payload
of the completion applied last: when the second submit resolves first
the state shows the second payload, and the later-arriving completion of
the first submit then overwrites it, so the guarantee is last to
complete wins, not last submitted wins. -/
theorem race_last_complete_wins (s : PageState) (q1 q2 : SearchQuery) (d1 d2 : String)
    (h1n : q1.characterName ≠ "") (h1s : q1.serverName ≠ "")
    (h2n : q2.characterName ≠ "") (h2s : q2.serverName ≠ "") :
    (applyEvents (applyEvents (applyEvents s (handleSearchPre q1)) (handleSearchPre q2))
        (handleSearchPost q2 (FetchOutcome.success d2))).searchResults = some d2 ∧
    (applyEvents (applyEvents (applyEvents (applyEvents s (handleSearchPre q1)) (handleSearchPre q2))
        (handleSearchPost q2 (FetchOutcome.success d2)))
        (handleSearchPost q1 (FetchOutcome.success d1))).searchResults = some d1 ∧
    issuesFetch (handleSearchPre q1) = true ∧
    issuesFetch (handleSearchPre q2) = true := by
  have h1 : ¬ (q1.characterName = "" ∨ q1.serverName = "") := fun hc => hc.elim h1n h1s
  have h2 : ¬ (q2.characterName = "" ∨ q2.serverName = "") := fun hc => hc.elim h2n h2s
  refine ⟨?_, ?_, ?_, ?_⟩ <;>
    simp [handleSearchPre, handleSearchPost, if_neg h1, if_neg h2,
      applyEvents, applyEvent, issuesFetch, List.foldl]

/-- C9 witness: two concrete submits where the second fetch resolves
first with payload second, then the first fetch resolves with payload
first and silently overwrites it. -/
theorem race_last_complete_wins_witness :
    (applyEvents (applyEvents (applyEvents pageInit (handleSearchPre sampleQuery))
        (handleSearchPre sampleQueryB))
        (handleSearchPost sampleQueryB (FetchOutcome.success "second"))).searchResults =
      some "second" ∧
    (applyEvents (applyEvents (applyEvents (applyEvents pageInit (handleSearchPre sampleQuery))
        (handleSearchPre sampleQueryB))
        (handleSearchPost sampleQueryB (FetchOutcome.success "second")))
        (handleSearchPost sampleQuery (FetchOutcome.success "first"))).searchResults =
      some "first" ∧
    issuesFetch (handleSearchPre sampleQuery) = true ∧
    issuesFetch (handleSearchPre sampleQueryB) = true :=
  race_last_complete_wins pageInit sampleQuery sampleQueryB "first" "second"
    (by decide) (by decide) (by decide) (by decide)

/-- C7: the display formatters are total over the documented domain: the
percentage formatters handle 0 and 1, the magnitude formatter handles 0
and one million, and the per-report success rate at total_fights equal
to zero evaluates under JS division semantics without any divide-by-zero
fault, rendering NaN% for zero kills and Infinity% for nonzero kills;
every evaluation below is a defined string. -/
theorem formatters_total :
    formatPercentage 0 = "0.0%" ∧ formatPercentage 1 = "100.0%" ∧
    formatValue 0 = "0.0%" ∧ formatValue 1 = "1.00" ∧
    formatNumber 0 = "0" ∧ formatNumber 1000000 = "1.0M" ∧
    successRateDisplay 0 0 = "NaN%" ∧ successRateDisplay 3 0 = "Infinity%" ∧
    successRateDisplay 1 2 = "50.0%" ∧ killRateDisplay 0 = "0.0%" := by
  refine ⟨?_, ?_, ?_, ?_, ?_, ?_, ?_, ?_, ?_, ?_⟩
  · rw [formatPercentage, toFixed_nonneg 1 ((0:ℚ) * 100) 0 (by norm_num)
      (by rw [show (0:ℚ) * 100 * (10:ℚ)^1 + 1/2 = 1/2 by norm_num]; norm_num)]
    decide
  · rw [formatPercentage, toFixed_nonneg 1 ((1:ℚ) * 100) 1000 (by norm_num)
      (by rw [show (1:ℚ) * 100 * (10:ℚ)^1 + 1/2 = 2001/2 by norm_num]; norm_num)]
    decide
  · rw [formatValue, if_pos (by norm_num), toFixed_nonneg 1 ((0:ℚ) * 100) 0 (by norm_num)
      (by rw [show (0:ℚ) * 100 * (10:ℚ)^1 + 1/2 = 1/2 by norm_num]; norm_num)]
    decide
  · rw [formatValue, if_neg (by norm_num), toFixed_nonneg 2 (1:ℚ) 100 (by norm_num)
      (by rw [show (1:ℚ) * (10:ℚ)^2 + 1/2 = 201/2 by norm_num]; norm_num)]
    decide
  · rw [formatNumber, if_neg (by norm_num), if_neg (by norm_num),
      toFixed_nonneg 0 (0:ℚ) 0 (by norm_num)
      (by rw [show (0:ℚ) * (10:ℚ)^0 + 1/2 = 1/2 by norm_num]; norm_num)]
    decide
  · rw [formatNumber, if_pos (by norm_num),
      toFixed_nonneg 1 ((1000000:ℚ) / 1000000) 10 (by norm_num)
      (by rw [show (1000000:ℚ) / 1000000 * (10:ℚ)^1 + 1/2 = 21/2 by norm_num]; norm_num)]
    decide
  · rw [successRateDisplay, jsDiv, if_pos rfl, if_pos rfl]
    decide
  · rw [successRateDisplay, show jsDiv 3 0 = JsNum.posInf from by norm_num [jsDiv]]
    decide
  · rw [successRateDisplay, show jsDiv 1 2 = JsNum.fin (1/2) from by norm_num [jsDiv],
      show jsMulPos (JsNum.fin (1/2)) 100 = JsNum.fin 50 from by norm_num [jsMulPos],
      show jsToFixed 1 (JsNum.fin 50) = toFixed 1 50 from rfl,
      toFixed_nonneg 1 (50:ℚ) 500 (by norm_num)
      (by rw [show (50:ℚ) * (10:ℚ)^1 + 1/2 = 1001/2 by norm_num]; norm_num)]
    decide
  · rw [killRateDisplay, toFixed_nonneg 1 (0:ℚ) 0 (by norm_num)
      (by rw [show (0:ℚ) * (10:ℚ)^1 + 1/2 = 1/2 by norm_num]; norm_num)]
    decide

/-- C8: for every magnitude value v, formatNumber renders v at or above
one million as v over one million to one decimal followed by M, renders
v between one thousand inclusive and one million exclusive as v over one
thousand to one decimal followed by K, and renders v below one thousand
by toFixed(0), which for these values is the integer string; together
with concrete boundary evaluations. -/
theorem magnitude_format (v : ℚ) :
    (v ≥ 1000000 → formatNumber v = toFixed 1 (v / 1000000) ++ "M") ∧
    (1000 ≤ v → v < 1000000 → formatNumber v = toFixed 1 (v / 1000) ++ "K") ∧
    (v < 1000 → formatNumber v = toFixed 0 v) ∧
    formatNumber 999 = "999" ∧ formatNumber 1000 = "1.0K" ∧
    formatNumber 2500000 = "2.5M" ∧ formatNumber 123456789 = "123.5M" := by
  refine ⟨fun h => ?_, fun h1 h2 => ?_, fun h => ?_, ?_, ?_, ?_, ?_⟩
  · rw [formatNumber, if_pos h]
  · rw [formatNumber, if_neg (not_le.mpr h2), if_pos h1]
  · rw [formatNumber, if_neg (not_le.mpr (lt_trans h (by norm_num))),
      if_neg (not_le.mpr h)]
  · rw [formatNumber, if_neg (by norm_num), if_neg (by norm_num),
      toFixed_nonneg 0 (999:ℚ) 999 (by norm_num)
      (by rw [show (999:ℚ) * (10:ℚ)^0 + 1/2 = 1999/2 by norm_num]; norm_num)]
    decide
  · rw [formatNumber, if_neg (by norm_num), if_pos (by norm_num),
      toFixed_nonneg 1 ((1000:ℚ) / 1000) 10 (by norm_num)
      (by rw [show (1000:ℚ) / 1000 * (10:ℚ)^1 + 1/2 = 21/2 by norm_num]; norm_num)]
    decide
  · rw [formatNumber, if_pos (by norm_num),
      toFixed_nonneg 1 ((2500000:ℚ) / 1000000) 25 (by norm_num)
      (by rw [show (2500000:ℚ) / 1000000 * (10:ℚ)^1 + 1/2 = 51/2 by norm_num]; norm_num)]
    decide
  · rw [formatNumber, if_pos (by norm_num),
      toFixed_nonneg 1 ((123456789:ℚ) / 1000000) 1235 (by norm_num)
      (by rw [show (123456789:ℚ) / 1000000 * (10:ℚ)^1 + 1/2 = 247013578/200000 by norm_num]
          norm_num)]
    decide

/-- C8 witness: concrete values in the M branch and the integer branch. -/
theorem magnitude_format_witness :
    ((2500000 : ℚ) ≥ 1000000 ∧ formatNumber 2500000 = toFixed 1 ((2500000:ℚ) / 1000000) ++ "M") ∧
    ((999 : ℚ) < 1000 ∧ formatNumber 999 = toFixed 0 (999:ℚ)) :=
  ⟨⟨by norm_num, (magnitude_format 2500000).1 (by norm_num)⟩,
   ⟨by norm_num, (magnitude_format 999).2.2.1 (by norm_num)⟩⟩

/-- C10: the Cooldown Efficiency card of PlayerMetricsDisplay is guarded
by the top-level performance.cooldown_usage field while its odds are read
from performance.fight_execution.cooldown_usage.odds; hence every payload
of the documented PerformanceMetrics shape (where cooldown_usage is
nested only inside fight_execution) never renders the card, a payload
whose guard field is present while fight_execution is absent throws a
TypeError, as does one whose fight_execution lacks cooldown_usage, and a
payload without the guard field never renders regardless of the nested
data. -/
theorem cooldown_card_mismatch (pm : PerformanceMetrics)
    (pa pb pc : PerformanceFields) (fe : FightExecutionFields) (st : StatLeaf)
    (haf : pa.fight_execution = none) (hag : pa.cooldown_usage = some st)
    (hbf : pb.fight_execution = some fe) (hbc : fe.cooldown_usage = none)
    (hbg : pb.cooldown_usage = some st)
    (hcg : pc.cooldown_usage = none) :
    cooldownCard pm.toDynamic = RenderOutcome.notRendered ∧
    cooldownCard pa = RenderOutcome.typeError ∧
    cooldownCard pb = RenderOutcome.typeError ∧
    cooldownCard pc = RenderOutcome.notRendered := by
  refine ⟨rfl, ?_, ?_, ?_⟩ <;>
    simp [cooldownCard, haf, hag, hbf, hbc, hbg, hcg, PerformanceMetrics.toDynamic]

/-- C10 witness: a concrete documented payload never renders the card,
and two concrete guard-present payloads with the nested statistic absent
throw. -/
theorem cooldown_card_mismatch_witness :
    cooldownCard samplePerformance.toDynamic = RenderOutcome.notRendered ∧
    cooldownCard (PerformanceFields.mk none (some (StatLeaf.mk (100, -120)))) =
      RenderOutcome.typeError ∧
    cooldownCard (PerformanceFields.mk (some (FightExecutionFields.mk none none))
      (some (StatLeaf.mk (100, -120)))) = RenderOutcome.typeError ∧
    cooldownCard (PerformanceFields.mk none none) = RenderOutcome.notRendered :=
  cooldown_card_mismatch samplePerformance
    (PerformanceFields.mk none (some (StatLeaf.mk (100, -120))))
    (PerformanceFields.mk (some (FightExecutionFields.mk none none))
      (some (StatLeaf.mk (100, -120))))
    (PerformanceFields.mk none none)
    (FightExecutionFields.mk none none) (StatLeaf.mk (100, -120))
    rfl rfl rfl rfl rfl rfl

end WowOdds
